import Mathlib

/-!
Verification of the compression-mode core of the pcodec repository:
`ChunkSpec` / `PagingSpec` page-size resolution (`src/pco/src/chunk_spec.rs`)
and the `Mode` algebra (`src/pco/src/mode.rs`), shallowly embedded in Lean.
Rust `usize` values are embedded as `Nat`; the fallible `PcoResult` is
embedded as `Except`, and the `unreachable!` panic as `Option.none`.
-/

namespace Pco

/-- Modelled from the spec: `PagingSpec` is defined in `chunk_metadata.rs`,
which is not among the provided sources. Per the spec it is a tagged value
that is either `SinglePage` or `ExactPageSizes(sizes)`, with `SinglePage`
the default; `chunk_spec.rs` matches exactly on these two variants. -/
inductive PagingSpec where
  | SinglePage : PagingSpec
  | ExactPageSizes (sizes : List Nat) : PagingSpec
  deriving DecidableEq

/-- Modelled from the spec: the default `PagingSpec` is `SinglePage`. -/
def PagingSpec.default : PagingSpec := PagingSpec.SinglePage

/-- Modelled from the spec: `PcoError` is defined in `errors.rs`, which is
not among the provided sources. Per the spec this core surfaces a single
error kind, `InvalidArgument`, carrying a human-readable message. -/
inductive PcoError where
  | invalidArgument (msg : String) : PcoError
  deriving DecidableEq

/-- Modelled from the spec: `PcoError::invalid_argument` constructs the
`InvalidArgument` error from a message. -/
def PcoError.invalid_argument (msg : String) : PcoError :=
  PcoError.invalidArgument msg

/-- Rust `PcoResult<T> = Result<T, PcoError>`. -/
abbrev PcoResult (α : Type) := Except PcoError α

/-- Rust `struct ChunkSpec { paging_spec: PagingSpec }`
(`src/pco/src/chunk_spec.rs`). -/
structure ChunkSpec where
  paging_spec : PagingSpec
  deriving DecidableEq

/-- `ChunkSpec::default()`: the derived default wraps the default
`PagingSpec`, i.e. `SinglePage`. -/
def ChunkSpec.default : ChunkSpec :=
  { paging_spec := PagingSpec.default }

/-- `ChunkSpec::with_page_sizes` (`src/pco/src/chunk_spec.rs`): replaces the
paging spec with `ExactPageSizes(sizes)`, storing the sequence as-is. -/
def ChunkSpec.with_page_sizes (spec : ChunkSpec) (sizes : List Nat) : ChunkSpec :=
  { spec with paging_spec := PagingSpec.ExactPageSizes sizes }

/-- The `for &size in &page_sizes` loop of `ChunkSpec::page_sizes`: returns
the first error for a zero-sized page, or unit if none is zero. -/
def zeroPageCheck : List Nat → PcoResult Unit
  | [] => Except.ok ()
  | size :: rest =>
    if size = 0 then
      Except.error (PcoError.invalid_argument "cannot write data page of 0 numbers")
    else
      zeroPageCheck rest

/-- `ChunkSpec::page_sizes` (`src/pco/src/chunk_spec.rs`): resolves the page
size vector for a chunk of `n` elements. The `match` on the paging spec
produces either `[n]` (single page) or the stored sizes after the sum check;
the `?` operator propagates the sum-mismatch error; finally the zero-page
loop runs over the resolved vector. -/
def ChunkSpec.page_sizes (spec : ChunkSpec) (n : Nat) : PcoResult (List Nat) :=
  let step : PcoResult (List Nat) :=
    match spec.paging_spec with
    | PagingSpec.SinglePage => Except.ok [n]
    | PagingSpec.ExactPageSizes sizes =>
      let sizes_n : Nat := sizes.sum
      if sizes_n = n then
        Except.ok sizes
      else
        Except.error (PcoError.invalid_argument
          ("chunk spec suggests " ++ toString sizes_n ++ " numbers but " ++
            toString n ++ " were given"))
  match step with
  | Except.error e => Except.error e
  | Except.ok page_sizes =>
    match zeroPageCheck page_sizes with
    | Except.error e => Except.error e
    | Except.ok _ => Except.ok page_sizes

/-- Rust `enum Mode<L: Latent>` (`src/pco/src/mode.rs`): `Classic`,
`IntMult(L)`, `FloatMult(L)`, `FloatDecomp(L)`. The latent carrier `L` is an
arbitrary type parameter; none of the verified operations inspect it. -/
inductive Mode (L : Type) where
  | Classic : Mode L
  | IntMult (base : L) : Mode L
  | FloatMult (base : L) : Mode L
  | FloatDecomp (k : L) : Mode L
  deriving DecidableEq

/-- `Mode::n_latent_vars` (`src/pco/src/mode.rs`). -/
def Mode.n_latent_vars {L : Type} : Mode L → Nat
  | Mode.Classic => 1
  | Mode.FloatMult _ | Mode.IntMult _ => 2
  | Mode.FloatDecomp _ => 2

/-- `Mode::delta_order_for_latent_var` (`src/pco/src/mode.rs`). The Rust
function panics (`unreachable!`) on any unmatched `(mode, latent_var_idx)`
pair; the panic is embedded as `none`. -/
def Mode.delta_order_for_latent_var {L : Type}
    (m : Mode L) (latent_var_idx : Nat) (delta_order : Nat) : Option Nat :=
  match m, latent_var_idx with
  | Mode.Classic, 0 | Mode.FloatMult _, 0 | Mode.FloatDecomp _, 0
  | Mode.IntMult _, 0 => some delta_order
  | Mode.FloatMult _, 1 | Mode.IntMult _, 1 => some 0
  | Mode.FloatDecomp _, 1 => some 0
  | _, _ => none

/-- `zeroPageCheck` succeeds exactly when no page size is zero. -/
theorem zeroPageCheck_ok_iff (l : List Nat) :
    zeroPageCheck l = Except.ok () ↔ 0 ∉ l := by
  induction l with
  | nil => simp [zeroPageCheck]
  | cons a rest ih =>
    by_cases ha : a = 0
    · subst ha
      simp [zeroPageCheck]
    · simp [zeroPageCheck, ha, ih, Ne.symm ha]

/-- `zeroPageCheck` fails with the zero-page message when some size is zero. -/
theorem zeroPageCheck_error_of_mem (l : List Nat) (h : 0 ∈ l) :
    zeroPageCheck l =
      Except.error (PcoError.invalid_argument "cannot write data page of 0 numbers") := by
  induction l with
  | nil => cases h
  | cons a rest ih =>
    by_cases ha : a = 0
    · subst ha
      simp [zeroPageCheck]
    · rcases List.mem_cons.mp h with h0 | h0
      · exact absurd h0.symm ha
      · simp [zeroPageCheck, ha, ih h0]

/-- A `SinglePage` spec resolves a nonzero chunk length to a single page. -/
theorem page_sizes_single_page (n : Nat) (hn : n ≠ 0) :
    ChunkSpec.page_sizes { paging_spec := PagingSpec.SinglePage } n = Except.ok [n] := by
  have hz : zeroPageCheck [n] = Except.ok () :=
    (zeroPageCheck_ok_iff [n]).mpr (by
      intro hmem
      exact hn (List.mem_singleton.mp hmem).symm)
  simp [ChunkSpec.page_sizes, hz]

/-- An `ExactPageSizes` spec with no zero page resolves the sum of its sizes
to exactly the stored sizes. -/
theorem page_sizes_exact_ok (S : List Nat) (h0 : 0 ∉ S) :
    ChunkSpec.page_sizes { paging_spec := PagingSpec.ExactPageSizes S } S.sum =
      Except.ok S := by
  have hz : zeroPageCheck S = Except.ok () := (zeroPageCheck_ok_iff S).mpr h0
  simp [ChunkSpec.page_sizes, hz]

/-- The sum-mismatch message can never coincide with the zero-page message:
the two differ in length for every rendered pair of numbers. -/
theorem chunk_suggests_msg_ne (a b : String) :
    ("chunk spec suggests " ++ a ++ " numbers but " ++ b ++ " were given") ≠
      "cannot write data page of 0 numbers" := by
  intro h
  have hlen := congrArg String.length h
  rw [String.length_append, String.length_append, String.length_append,
    String.length_append] at hlen
  have h1 : ("chunk spec suggests ").length = 20 := by decide
  have h2 : (" numbers but ").length = 13 := by decide
  have h3 : (" were given").length = 11 := by decide
  have h4 : ("cannot write data page of 0 numbers").length = 35 := by decide
  rw [h1, h2, h3, h4] at hlen
  omega

/-- C1: For every `ChunkSpec` (`SinglePage` or `ExactPageSizes`) and every
chunk length `n`, if `page_sizes n` returns `Ok P` then the elements of `P`
sum to `n` and every element of `P` is at least 1. -/
theorem c1_page_sizes_partition (spec : ChunkSpec) (n : Nat) (P : List Nat)
    (h : spec.page_sizes n = Except.ok P) :
    P.sum = n ∧ ∀ x ∈ P, 1 ≤ x := by
  obtain ⟨ps⟩ := spec
  cases ps with
  | SinglePage =>
    by_cases hn : n = 0
    · subst hn
      have hz := zeroPageCheck_error_of_mem [0] (by simp)
      simp [ChunkSpec.page_sizes, hz] at h
    · rw [page_sizes_single_page n hn] at h
      simp only [Except.ok.injEq] at h
      subst h
      refine ⟨by simp, ?_⟩
      intro x hx
      rw [List.mem_singleton] at hx
      subst hx
      omega
  | ExactPageSizes S =>
    by_cases hsum : S.sum = n
    · subst hsum
      by_cases hmem : 0 ∈ S
      · have hz := zeroPageCheck_error_of_mem S hmem
        simp [ChunkSpec.page_sizes, hz] at h
      · rw [page_sizes_exact_ok S hmem] at h
        simp only [Except.ok.injEq] at h
        subst h
        refine ⟨rfl, ?_⟩
        intro x hx
        have : x ≠ 0 := fun h0 => hmem (h0 ▸ hx)
        omega
    · simp [ChunkSpec.page_sizes, hsum] at h

/-- C1 witness: a concrete resolved spec satisfies the partition invariant. -/
theorem c1_page_sizes_partition_witness :
    (ChunkSpec.default.with_page_sizes [2, 3]).page_sizes 5 = Except.ok [2, 3] ∧
    ([2, 3] : List Nat).sum = 5 ∧ ∀ x ∈ ([2, 3] : List Nat), 1 ≤ x :=
  ⟨rfl, c1_page_sizes_partition (ChunkSpec.default.with_page_sizes [2, 3]) 5 [2, 3] rfl⟩

/-- C2: For every non-empty sequence `S` of strictly positive integers,
`ChunkSpec.default.with_page_sizes S` resolves the sum of `S` to exactly the
stored sequence. -/
theorem c2_with_page_sizes_roundtrip (S : List Nat) (hne : S ≠ [])
    (hpos : ∀ x ∈ S, 0 < x) :
    (ChunkSpec.default.with_page_sizes S).page_sizes S.sum = Except.ok S := by
  have h0 : 0 ∉ S := fun hmem => absurd (hpos 0 hmem) (by omega)
  exact page_sizes_exact_ok S h0

/-- C2 witness: the documented example `[1, 2, 3]` against `n = 6`. -/
theorem c2_with_page_sizes_roundtrip_witness :
    ([1, 2, 3] : List Nat) ≠ [] ∧ (∀ x ∈ ([1, 2, 3] : List Nat), 0 < x) ∧
    (ChunkSpec.default.with_page_sizes [1, 2, 3]).page_sizes 6 = Except.ok [1, 2, 3] :=
  ⟨by decide, by decide,
    c2_with_page_sizes_roundtrip [1, 2, 3] (by decide) (by decide)⟩

/-- C3: For every sequence `S` and every `n` with `sum S ≠ n`, an
`ExactPageSizes S` spec fails with `InvalidArgument` whose message is exactly
"chunk spec suggests {s} numbers but {n} were given" for `s = sum S`, both
rendered in decimal (the rendering of `Nat.repr` used by `toString`). -/
theorem c3_sum_mismatch (S : List Nat) (n : Nat) (h : S.sum ≠ n) :
    ChunkSpec.page_sizes { paging_spec := PagingSpec.ExactPageSizes S } n =
      Except.error (PcoError.invalid_argument
        ("chunk spec suggests " ++ toString S.sum ++ " numbers but " ++
          toString n ++ " were given")) := by
  simp [ChunkSpec.page_sizes, h]

/-- C3 witness: the documented example `[1, 2, 3]` against `n = 5`. -/
theorem c3_sum_mismatch_witness :
    ([1, 2, 3] : List Nat).sum ≠ 5 ∧
    ChunkSpec.page_sizes { paging_spec := PagingSpec.ExactPageSizes [1, 2, 3] } 5 =
      Except.error (PcoError.invalid_argument
        "chunk spec suggests 6 numbers but 5 were given") :=
  ⟨by decide, c3_sum_mismatch [1, 2, 3] 5 (by decide)⟩

/-- C4: For every sequence `S` containing a zero whose sum equals `n`, an
`ExactPageSizes S` spec fails with the zero-page `InvalidArgument` error. -/
theorem c4_zero_page (S : List Nat) (n : Nat) (hmem : 0 ∈ S) (hsum : S.sum = n) :
    ChunkSpec.page_sizes { paging_spec := PagingSpec.ExactPageSizes S } n =
      Except.error (PcoError.invalid_argument "cannot write data page of 0 numbers") := by
  subst hsum
  have hz := zeroPageCheck_error_of_mem S hmem
  simp [ChunkSpec.page_sizes, hz]

/-- C4 witness: the documented example `[2, 0, 3]` against `n = 5`. -/
theorem c4_zero_page_witness :
    (0 : Nat) ∈ ([2, 0, 3] : List Nat) ∧ ([2, 0, 3] : List Nat).sum = 5 ∧
    ChunkSpec.page_sizes { paging_spec := PagingSpec.ExactPageSizes [2, 0, 3] } 5 =
      Except.error (PcoError.invalid_argument "cannot write data page of 0 numbers") :=
  ⟨by decide, by decide, c4_zero_page [2, 0, 3] 5 (by decide) (by decide)⟩

/-- C5: When an `ExactPageSizes` sequence both fails the sum check and
contains a zero element, `page_sizes` returns the sum-mismatch error and not
the zero-page error: the sum-mismatch check precedes the zero-size check. -/
theorem c5_sum_check_first (S : List Nat) (n : Nat) (hmem : 0 ∈ S)
    (h : S.sum ≠ n) :
    ChunkSpec.page_sizes { paging_spec := PagingSpec.ExactPageSizes S } n =
      Except.error (PcoError.invalid_argument
        ("chunk spec suggests " ++ toString S.sum ++ " numbers but " ++
          toString n ++ " were given")) ∧
    ChunkSpec.page_sizes { paging_spec := PagingSpec.ExactPageSizes S } n ≠
      Except.error (PcoError.invalid_argument "cannot write data page of 0 numbers") := by
  have heq : ChunkSpec.page_sizes { paging_spec := PagingSpec.ExactPageSizes S } n =
      Except.error (PcoError.invalid_argument
        ("chunk spec suggests " ++ toString S.sum ++ " numbers but " ++
          toString n ++ " were given")) := by
    simp [ChunkSpec.page_sizes, h]
  refine ⟨heq, ?_⟩
  rw [heq]
  intro hbad
  simp only [Except.error.injEq, PcoError.invalidArgument.injEq,
    PcoError.invalid_argument] at hbad
  exact chunk_suggests_msg_ne (toString S.sum) (toString n) hbad

/-- C5 witness: `sizes = [0]` against `n = 5` gets the sum-mismatch message. -/
theorem c5_sum_check_first_witness :
    (0 : Nat) ∈ ([0] : List Nat) ∧ ([0] : List Nat).sum ≠ 5 ∧
    ChunkSpec.page_sizes { paging_spec := PagingSpec.ExactPageSizes [0] } 5 =
      Except.error (PcoError.invalid_argument
        "chunk spec suggests 0 numbers but 5 were given") ∧
    ChunkSpec.page_sizes { paging_spec := PagingSpec.ExactPageSizes [0] } 5 ≠
      Except.error (PcoError.invalid_argument "cannot write data page of 0 numbers") :=
  ⟨by decide, by decide,
    (c5_sum_check_first [0] 5 (by decide) (by decide)).1,
    (c5_sum_check_first [0] 5 (by decide) (by decide)).2⟩

/-- C6: For the default `ChunkSpec` (paging `SinglePage`), `page_sizes n`
returns `Ok [n]` for every `n ≥ 1` and fails with the zero-page
`InvalidArgument` error when `n = 0`. -/
theorem c6_default_single_page (n : Nat) :
    (1 ≤ n → ChunkSpec.default.page_sizes n = Except.ok [n]) ∧
    ChunkSpec.default.page_sizes 0 =
      Except.error (PcoError.invalid_argument "cannot write data page of 0 numbers") :=
  ⟨fun hn => page_sizes_single_page n (by omega), rfl⟩

/-- C6 witness: the documented example `n = 6`, plus the `n = 0` failure. -/
theorem c6_default_single_page_witness :
    ChunkSpec.default.page_sizes 6 = Except.ok [6] ∧
    ChunkSpec.default.page_sizes 0 =
      Except.error (PcoError.invalid_argument "cannot write data page of 0 numbers") :=
  ⟨(c6_default_single_page 6).1 (by decide), (c6_default_single_page 6).2⟩

/-- C7: For every mode `M` and requested delta order `d`, latent index 0 uses
`d`, and for every two-latent mode (`IntMult`, `FloatMult`, `FloatDecomp`)
latent index 1 uses delta order 0. -/
theorem c7_delta_order_per_latent {L : Type} (M : Mode L) (d : Nat) :
    M.delta_order_for_latent_var 0 d = some d ∧
    (M.n_latent_vars = 2 → M.delta_order_for_latent_var 1 d = some 0) := by
  cases M <;> simp [Mode.delta_order_for_latent_var, Mode.n_latent_vars]

/-- C7 witness: the documented example `IntMult 10` at latent 1 and order 7. -/
theorem c7_delta_order_per_latent_witness :
    (Mode.IntMult (10 : Nat)).n_latent_vars = 2 ∧
    (Mode.IntMult (10 : Nat)).delta_order_for_latent_var 0 7 = some 7 ∧
    (Mode.IntMult (10 : Nat)).delta_order_for_latent_var 1 7 = some 0 :=
  ⟨by decide, (c7_delta_order_per_latent (Mode.IntMult (10 : Nat)) 7).1,
    (c7_delta_order_per_latent (Mode.IntMult (10 : Nat)) 7).2 (by decide)⟩

/-- C8: For every mode `M`, `n_latent_vars M ∈ {1, 2}`; it equals 1 when `M`
is `Classic` and equals 2 exactly when `M` is `IntMult`, `FloatMult`, or
`FloatDecomp`. -/
theorem c8_n_latent_vars_range {L : Type} (M : Mode L) :
    (M.n_latent_vars = 1 ∨ M.n_latent_vars = 2) ∧
    (M = Mode.Classic → M.n_latent_vars = 1) ∧
    (M.n_latent_vars = 2 ↔
      (∃ base, M = Mode.IntMult base) ∨ (∃ base, M = Mode.FloatMult base) ∨
        (∃ k, M = Mode.FloatDecomp k)) := by
  cases M <;> simp [Mode.n_latent_vars]

/-- C8 witness: `Classic` has one latent variable and `IntMult 3` has two. -/
theorem c8_n_latent_vars_range_witness :
    (Mode.Classic : Mode Nat).n_latent_vars = 1 ∧
    (Mode.IntMult (3 : Nat)).n_latent_vars = 2 :=
  ⟨(c8_n_latent_vars_range (Mode.Classic : Mode Nat)).2.1 rfl,
    (c8_n_latent_vars_range (Mode.IntMult (3 : Nat))).2.2.mpr (Or.inl ⟨3, rfl⟩)⟩

/-- C9: For every `(mode, latent index)` pair outside the valid set — i.e.
index at least 2, or index 1 with the one-latent mode `Classic` — the Rust
function hits `unreachable!` (a panic), embedded here as returning `none`. -/
theorem c9_invalid_latent_panics {L : Type} (M : Mode L) (i d : Nat)
    (h : 2 ≤ i ∨ (M = Mode.Classic ∧ i = 1)) :
    M.delta_order_for_latent_var i d = none := by
  rcases h with h2 | ⟨hM, hi⟩
  · obtain ⟨j, rfl⟩ : ∃ j, i = j + 2 := ⟨i - 2, by omega⟩
    cases M <;> rfl
  · subst hM
    subst hi
    rfl

/-- C9 witness: `(Classic, 1)` panics (returns `none` in the embedding). -/
theorem c9_invalid_latent_panics_witness :
    (2 ≤ 1 ∨ ((Mode.Classic : Mode Nat) = Mode.Classic ∧ 1 = 1)) ∧
    (Mode.Classic : Mode Nat).delta_order_for_latent_var 1 3 = none :=
  ⟨Or.inr ⟨rfl, rfl⟩,
    c9_invalid_latent_panics (Mode.Classic : Mode Nat) 1 3 (Or.inr ⟨rfl, rfl⟩)⟩

/-- C10: A spec built with `with_page_sizes []` resolves `n = 0` to the empty
page list, while the default `SinglePage` spec fails with the zero-page error
for the same `n = 0`. -/
theorem c10_empty_page_sizes :
    (ChunkSpec.default.with_page_sizes []).page_sizes 0 = Except.ok [] ∧
    ChunkSpec.default.page_sizes 0 =
      Except.error (PcoError.invalid_argument "cannot write data page of 0 numbers") :=
  ⟨rfl, rfl⟩

end Pco
